import Mathlib

/-!
Shallow embedding of the SQL guardrail validator of `chatbot_service.py`
(functions `is_aggregate` and `validate_sql`, plus the constants they use).

Strings are modelled as Lean `String`; the internal computations work on the
underlying `List Char`, written `Chars` below.  Python's `str.lower` is
modelled per character by `Char.toLower` (the SQL keywords and reason strings
involved are all ASCII, where the two coincide).

A point of the source that the embedding reproduces exactly: the regular
expression patterns in `validate_sql` are written as raw strings containing
two backslash characters, e.g. the banned-keyword pattern is the raw string
with characters backslash backslash b ... .  The regex engine therefore
interprets the leading escaped backslash as a literal backslash character,
so the pattern matches the literal text backslash-b-keyword-backslash-b
rather than a word-boundary-delimited keyword.  Likewise the table-extraction
pattern matches the literal seven characters backslash b f r o m backslash,
followed by one or more literal letters s, followed by one or more characters
from the set containing backslash, the letter w and the dot.  The embedding
below encodes these literal-match semantics.
-/

/-- Character list, the model of Python strings inside the validator. -/
abbrev Chars := List Char

/-- Python `str.lower`, modelled per character (ASCII case folding). -/
def pyLower (s : Chars) : Chars := s.map Char.toLower

/-- Python substring membership, the `in` operator on `str`:
`containsSub needle hay` is true iff `needle` occurs contiguously in `hay`. -/
def containsSub : Chars → Chars → Bool
  | n, [] => n.isEmpty
  | n, c :: t => n.isPrefixOf (c :: t) || containsSub n t

/-- The banned keyword list of `validate_sql` (source line 145). -/
def bannedKeywords : List Chars :=
  [("insert".data), ("update".data), ("delete".data), ("create".data),
   ("drop".data), ("alter".data), ("attach".data), ("pragma".data),
   ("copy".data), ("truncate".data)]

/-- The two characters backslash and b: what the raw-string fragment of the
banned-keyword pattern denotes as literal text after regex unescaping. -/
def bbLit : Chars := ("\\b".data)

/-- The banned-keyword test of `validate_sql` (source line 146): for each
keyword, the regex search amounts to a literal substring search for
backslash-b-keyword-backslash-b in the lowercased query. -/
def bannedHit (lc : Chars) : Bool :=
  bannedKeywords.any (fun kw => containsSub (bbLit ++ kw ++ bbLit) lc)

/-- Characters admitted by the character class of the table-extraction
pattern: after regex unescaping the class holds backslash, w and dot. -/
def identClassChar (c : Char) : Bool := c == '\\' || c == 'w' || c == '.'

/-- Literal prefix matched by the `from` table-extraction pattern:
backslash b f r o m backslash. -/
def fromLit : Chars := ("\\bfrom\\".data)

/-- Literal prefix matched by the `join` table-extraction pattern:
backslash b j o i n backslash. -/
def joinLit : Chars := ("\\bjoin\\".data)

/-- One attempted regex match at the current position: the literal prefix,
then one or more literal `s` characters (greedy; nothing admissible to give
back, since `s` is not in the capture class), then one or more characters of
the capture class (greedy).  Returns the captured group and the rest of the
input after the match. -/
def matchAt (lit : Chars) (h : Chars) : Option (Chars × Chars) :=
  if lit.isPrefixOf h then
    let r1 := h.drop lit.length
    let sRun := r1.takeWhile (fun c => c == 's')
    if sRun.isEmpty then none
    else
      let r2 := r1.drop sRun.length
      let cap := r2.takeWhile identClassChar
      if cap.isEmpty then none
      else some (cap, r2.drop cap.length)
  else none

/-- `re.findall` scan: try a match at each position, on success emit the
capture and resume after the match, on failure advance one character.  The
fuel argument is initialised to the input length; every step consumes at
least one character, so the fuel never runs out before the input does. -/
def scanAux : Nat → Chars → Chars → List Chars
  | 0, _, _ => []
  | _ + 1, _, [] => []
  | fuel + 1, lit, c :: t =>
    match matchAt lit (c :: t) with
    | some (cap, rest) => cap :: scanAux fuel lit rest
    | none => scanAux fuel lit t

/-- All captures of the pattern with literal prefix `lit` in `h`. -/
def findCaptures (lit : Chars) (h : Chars) : List Chars :=
  scanAux h.length lit h

/-- Python `t.split(".")[-1]`: the characters after the last dot, or the
whole string when it has no dot. -/
def afterLastDot (t : Chars) : Chars :=
  (t.reverse.takeWhile (fun c => c ≠ '.')).reverse

/-- Source line 151 and 152: the extracted table names, here of the
lowercased query text. -/
def extractTables (lc : Chars) : List Chars :=
  ((findCaptures fromLit lc) ++ (findCaptures joinLit lc)).map afterLastDot

/-- Schema snapshot: mapping from table name to mapping from column name to
declared type, modelled as association lists. -/
abbrev Schema := List (String × List (String × String))

/-- Python `t in schema` on a dict: membership among the keys. -/
def schemaHasTable (schema : Schema) (t : String) : Bool :=
  schema.any (fun e => e.fst == t)

/-- The loop of source lines 153 to 155: the first extracted table that is
not a schema key, if any. -/
def badTable (schema : Schema) (lc : Chars) : Option Chars :=
  (extractTables lc).find? (fun t => !(schemaHasTable schema (String.mk t)))

/-- `is_aggregate` of the source (lines 136 to 138). -/
def is_aggregate (sql_lc : Chars) : Bool :=
  [("group by".data), ("count(".data), ("avg(".data), ("sum(".data),
   ("median(".data), ("percentile".data), ("histogram(".data)].any
    (fun k => containsSub k sql_lc)

/-- Rejection reason of the multiple-statements rule. -/
def reasonMulti : String := "Multiple statements are not allowed."

/-- Rejection reason of the banned-keyword rule. -/
def reasonReadOnly : String := "Only read-only SELECT is allowed."

/-- Rejection reason of the statement-shape rule. -/
def reasonShape : String := "Query must start with SELECT."

/-- Rejection reason of the table-allowlist rule, for table name `t`. -/
def reasonTable (t : Chars) : String :=
  String.mk (("Table ".data) ++ t ++ (" is not allowed.".data))

/-- Rejection reason of the missing-limit rule. -/
def reasonLimit : String := "Please include a LIMIT for non-aggregate queries."

/-- `validate_sql` of the source (lines 141 to 159). -/
def validate_sql (sql : String) (schema : Schema) : Bool × String :=
  let sql_lc : Chars := pyLower sql.data
  if containsSub (";".data) sql_lc = true then
    (false, reasonMulti)
  else if bannedHit sql_lc = true then
    (false, reasonReadOnly)
  else if ("select".data).isPrefixOf sql_lc = false then
    (false, reasonShape)
  else
    match badTable schema sql_lc with
    | some t => (false, reasonTable t)
    | none =>
      if is_aggregate sql_lc = false ∧ containsSub ("limit".data) sql_lc = false then
        (false, reasonLimit)
      else
        (true, "")

/-- A pair of schema snapshots sharing the same table keys but differing in
their column information, used to observe schema-key-only dependence. -/
def schemaKeysOnlyA : Schema :=
  [("london_bike_data", [("start_date", "TIMESTAMP")])]

/-- Same table keys as `schemaKeysOnlyA`, different columns. -/
def schemaKeysOnlyB : Schema :=
  [("london_bike_data", [("ride_id", "VARCHAR"), ("duration", "BIGINT")])]

/-- A schema snapshot with the three allowlisted tables of the service. -/
def exampleSchema : Schema :=
  [("london_bike_data",
     [("start_date", "TIMESTAMP"), ("start_station_name", "VARCHAR")]),
   ("nyc_biking_data",
     [("start_time", "TIMESTAMP"), ("end_time", "TIMESTAMP")]),
   ("joint_bike_data",
     [("city", "VARCHAR")])]

/-- Auxiliary: a single-character needle occurs in `l` whenever the
character is a member of `l`. -/
theorem containsSub_singleton_of_mem {c : Char} {l : Chars} (h : c ∈ l) :
    containsSub [c] l = true := by
  induction l with
  | nil => cases h
  | cons a t ih =>
    rcases List.mem_cons.mp h with h | h
    · subst h
      simp [containsSub, List.isPrefixOf]
    · simp [containsSub, ih h]

/-- C1: falsified by the code.  The banned-keyword regex pattern is a raw
string whose escaped backslashes make it match the literal text
backslash-b-keyword-backslash-b, so no ordinary SQL text ever triggers the
read-only rejection: the query of the repository's own test
`test_reject_ddl` is rejected with the statement-shape reason instead of the
read-only reason, and a SELECT query containing the banned keyword `drop` as
a whole word is even accepted outright. -/
theorem c1_banned_keyword_rule_inert :
    validate_sql ("drop table london_bike_data") exampleSchema = (false, reasonShape) ∧
    validate_sql ("select 1 drop limit 1") exampleSchema = (true, "") := by
  constructor <;> decide

/-- C2: falsified by the code.  The table-extraction patterns likewise match
only literal backslash sequences, so `extractTables` finds no table in
ordinary SQL and the allowlist loop never fires: the query of the
repository's own test `test_reject_disallowed_table` is accepted although
`secret_table` is not a schema key. -/
theorem c2_table_allowlist_inert :
    validate_sql ("select * from secret_table limit 5") exampleSchema = (true, "") ∧
    schemaHasTable exampleSchema ("secret_table") = false ∧
    extractTables (pyLower ("select * from secret_table limit 5").data) = [] := by
  refine ⟨by decide, by decide, by decide⟩

/-- C3: every query containing the statement separator `;` is rejected with
the multiple-statements reason, for every schema; the rule is the first one
checked, so its reason is the one returned. -/
theorem c3_semicolon_rejects (sql : String) (schema : Schema) (h : ';' ∈ sql.data) :
    validate_sql sql schema = (false, reasonMulti) := by
  have h2 : ';' ∈ pyLower sql.data := by
    have := List.mem_map_of_mem Char.toLower h
    simpa [pyLower] using this
  have h3 : containsSub (";".data) (pyLower sql.data) = true := by
    have e : (";".data) = [';'] := rfl
    rw [e]
    exact containsSub_singleton_of_mem h2
  simp [validate_sql, h3]

/-- Witness for C3 at the concrete input of the repository's test
`test_reject_multiple_statements`. -/
theorem c3_semicolon_rejects_witness :
    validate_sql ("select 1; select 2") exampleSchema = (false, reasonMulti) :=
  c3_semicolon_rejects ("select 1; select 2") exampleSchema (by decide)

/-- Auxiliary: the table-allowlist reason never coincides with the
statement-shape reason, whatever the table name. -/
theorem reasonTable_ne_shape (t : Chars) : reasonTable t ≠ reasonShape := by
  intro h
  have h2 : ('T' :: (("able ".data) ++ (t ++ (" is not allowed.".data))))
      = ('Q' :: ("uery must start with SELECT.".data)) := congrArg String.data h
  injection h2 with hh _
  exact absurd hh (by decide)

/-- Auxiliary: the table-allowlist reason is never the empty string. -/
theorem reasonTable_ne_empty (t : Chars) : reasonTable t ≠ "" := by
  intro h
  have h2 : ('T' :: (("able ".data) ++ (t ++ (" is not allowed.".data))))
      = ([] : Chars) := congrArg String.data h
  cases h2

/-- C4, counterexample: the claim requires the statement-shape rule to fire
exactly when the trimmed text does not begin with `select`, but the code
never trims: a query with one leading blank passes the separator and
banned-keyword rules, begins with `select` once leading whitespace is
dropped, and is still rejected by the shape rule. -/
theorem c4_counterexample_no_trim :
    validate_sql (" select 1 limit 1") exampleSchema = (false, reasonShape) ∧
    ("select".data).isPrefixOf
      (pyLower ((" select 1 limit 1").data.dropWhile (fun c => c == ' '))) = true ∧
    containsSub (";".data) (pyLower (" select 1 limit 1").data) = false ∧
    bannedHit (pyLower (" select 1 limit 1").data) = false := by
  refine ⟨by decide, by decide, by decide, by decide⟩

/-- C4, amended: for every query passing the separator and banned-keyword
rules, the validator returns the statement-shape rejection exactly when the
case-folded text, without any trimming, does not begin with `select`. -/
theorem c4_shape_rule (sql : String) (schema : Schema)
    (h1 : containsSub (";".data) (pyLower sql.data) = false)
    (h2 : bannedHit (pyLower sql.data) = false) :
    validate_sql sql schema = (false, reasonShape) ↔
      ("select".data).isPrefixOf (pyLower sql.data) = false := by
  constructor
  · intro h
    by_contra hs
    rw [Bool.not_eq_false] at hs
    simp only [validate_sql, h1, h2, hs] at h
    norm_num at h
    rcases hb : badTable schema (pyLower sql.data) with _ | t
    · rw [hb] at h
      by_cases hP : is_aggregate (pyLower sql.data) = false ∧
          containsSub ("limit".data) (pyLower sql.data) = false
      · simp only [hP] at h
        norm_num at h
        exact absurd h (by decide)
      · simp only [if_neg hP] at h
        exact absurd h (by decide)
    · rw [hb] at h
      have h' : reasonTable t = reasonShape := congrArg Prod.snd h
      exact absurd h' (reasonTable_ne_shape t)
  · intro hs
    simp [validate_sql, h1, h2, hs]

/-- Witness for the amended C4 at a concrete non-SELECT input. -/
theorem c4_shape_rule_witness :
    validate_sql ("foo") exampleSchema = (false, reasonShape) ↔
      ("select".data).isPrefixOf (pyLower ("foo").data) = false :=
  c4_shape_rule ("foo") exampleSchema (by decide) (by decide)

/-- C5: a query that passes the first four rules, is not classified as
aggregate and contains no `limit` substring is rejected with the
missing-limit reason; and on the concrete pair of the claim, adding a limit
clause flips the verdict to accepted. -/
theorem c5_limit_required_for_non_aggregate :
    (∀ (sql : String) (schema : Schema),
      containsSub (";".data) (pyLower sql.data) = false →
      bannedHit (pyLower sql.data) = false →
      ("select".data).isPrefixOf (pyLower sql.data) = true →
      badTable schema (pyLower sql.data) = none →
      is_aggregate (pyLower sql.data) = false →
      containsSub ("limit".data) (pyLower sql.data) = false →
      validate_sql sql schema = (false, reasonLimit)) ∧
    validate_sql ("select * from london_bike_data limit 10") exampleSchema = (true, "") ∧
    validate_sql ("select * from london_bike_data") exampleSchema = (false, reasonLimit) := by
  refine ⟨?_, by decide, by decide⟩
  intro sql schema h1 h2 h3 h4 h5 h6
  simp [validate_sql, h1, h2, h3, h4, h5, h6]

/-- Witness for C5 at a concrete non-aggregate query without a limit. -/
theorem c5_limit_required_witness :
    validate_sql ("select 1") exampleSchema = (false, reasonLimit) :=
  c5_limit_required_for_non_aggregate.1 ("select 1") exampleSchema
    (by decide) (by decide) (by decide) (by decide) (by decide) (by decide)

/-- C6: a query that passes the first four rules and contains an
aggregation or grouping marker is accepted with an empty reason, limit
clause or not; the concrete aggregate query of the claim is accepted. -/
theorem c6_aggregate_accepted_without_limit :
    (∀ (sql : String) (schema : Schema),
      containsSub (";".data) (pyLower sql.data) = false →
      bannedHit (pyLower sql.data) = false →
      ("select".data).isPrefixOf (pyLower sql.data) = true →
      badTable schema (pyLower sql.data) = none →
      is_aggregate (pyLower sql.data) = true →
      validate_sql sql schema = (true, "")) ∧
    validate_sql
      ("select start_station_name, count(*) from london_bike_data group by 1 order by 2 desc")
      exampleSchema = (true, "") := by
  refine ⟨?_, by decide⟩
  intro sql schema h1 h2 h3 h4 h5
  simp [validate_sql, h1, h2, h3, h4, h5]

/-- Witness for C6 at a concrete aggregate query without a limit. -/
theorem c6_aggregate_accepted_witness :
    validate_sql ("select count(*) from london_bike_data") exampleSchema = (true, "") :=
  c6_aggregate_accepted_without_limit.1 ("select count(*) from london_bike_data")
    exampleSchema (by decide) (by decide) (by decide) (by decide) (by decide)

/-- Auxiliary: the validator always lands in one of its six return sites. -/
theorem validate_sql_cases (sql : String) (schema : Schema) :
    validate_sql sql schema = (true, "") ∨
    validate_sql sql schema = (false, reasonMulti) ∨
    validate_sql sql schema = (false, reasonReadOnly) ∨
    validate_sql sql schema = (false, reasonShape) ∨
    (∃ t, validate_sql sql schema = (false, reasonTable t)) ∨
    validate_sql sql schema = (false, reasonLimit) := by
  by_cases h1 : containsSub (";".data) (pyLower sql.data) = true
  · simp [validate_sql, h1]
  rw [Bool.not_eq_true] at h1
  by_cases h2 : bannedHit (pyLower sql.data) = true
  · simp [validate_sql, h1, h2]
  rw [Bool.not_eq_true] at h2
  by_cases h3 : ("select".data).isPrefixOf (pyLower sql.data) = false
  · simp [validate_sql, h1, h2, h3]
  rw [Bool.not_eq_false] at h3
  rcases hb : badTable schema (pyLower sql.data) with _ | t
  · by_cases hP : is_aggregate (pyLower sql.data) = false ∧
        containsSub ("limit".data) (pyLower sql.data) = false
    · simp [validate_sql, h1, h2, h3, hb, hP]
    · simp [validate_sql, h1, h2, h3, hb, hP]
  · refine Or.inr (Or.inr (Or.inr (Or.inr (Or.inl ⟨t, ?_⟩))))
    simp [validate_sql, h1, h2, h3, hb]

/-- C7: the validator is total and its verdict binary: the accepted flag is
true exactly when the reason is empty, every rejection reason is one of the
five rule explanations (the table one carrying the offending table name),
and the empty query is rejected by the statement-shape rule. -/
theorem c7_total_binary_verdict (sql : String) (schema : Schema) :
    (((validate_sql sql schema).1 = true) ↔ (validate_sql sql schema).2 = "") ∧
    ((validate_sql sql schema).2 = "" ∨
     (validate_sql sql schema).2 = reasonMulti ∨
     (validate_sql sql schema).2 = reasonReadOnly ∨
     (validate_sql sql schema).2 = reasonShape ∨
     (∃ t, (validate_sql sql schema).2 = reasonTable t) ∨
     (validate_sql sql schema).2 = reasonLimit) ∧
    validate_sql ("") schema = (false, reasonShape) := by
  rcases validate_sql_cases sql schema with h | h | h | h | ⟨t, h⟩ | h
  · rw [h]
    exact ⟨by simp, Or.inl rfl, rfl⟩
  · rw [h]
    refine ⟨by simp [reasonMulti], Or.inr (Or.inl rfl), rfl⟩
  · rw [h]
    refine ⟨by simp [reasonReadOnly], Or.inr (Or.inr (Or.inl rfl)), rfl⟩
  · rw [h]
    refine ⟨by simp [reasonShape], Or.inr (Or.inr (Or.inr (Or.inl rfl))), rfl⟩
  · rw [h]
    refine ⟨?_, Or.inr (Or.inr (Or.inr (Or.inr (Or.inl ⟨t, rfl⟩)))), rfl⟩
    constructor
    · intro hc
      simp at hc
    · intro hc
      exact absurd hc (reasonTable_ne_empty t)
  · rw [h]
    refine ⟨by simp [reasonLimit], Or.inr (Or.inr (Or.inr (Or.inr (Or.inr rfl)))), rfl⟩

/-- C8: the validator is deterministic: equal query strings and equal
schemas yield identical verdicts.  Purity holds by construction of the
embedding: the source body calls only side-effect-free string and regex
operations, which the definitions here model as total functions. -/
theorem c8_deterministic (sql1 sql2 : String) (s1 s2 : Schema)
    (hq : sql1 = sql2) (hs : s1 = s2) :
    validate_sql sql1 s1 = validate_sql sql2 s2 := by
  subst hq
  subst hs
  rfl

/-- Witness for C8 at a concrete repeated invocation. -/
theorem c8_deterministic_witness :
    validate_sql ("select 1 limit 1") exampleSchema =
      validate_sql ("select 1 limit 1") exampleSchema :=
  c8_deterministic ("select 1 limit 1") ("select 1 limit 1")
    exampleSchema exampleSchema rfl rfl

/-- Auxiliary: unfolding of `Char.toLower` without its local let binding. -/
theorem char_toLower_eq (c : Char) :
    c.toLower =
      if c.toNat ≥ 65 ∧ c.toNat ≤ 90 then Char.ofNat (c.toNat + 32) else c := rfl

/-- Auxiliary: lower-case images of upper-case letters are toLower fixed
points. -/
theorem char_toLower_fixed {m : Nat} (h1 : 65 ≤ m) (h2 : m ≤ 90) :
    Char.toLower (Char.ofNat (m + 32)) = Char.ofNat (m + 32) := by
  interval_cases m <;> decide

/-- Auxiliary: ASCII case folding is idempotent per character. -/
theorem char_toLower_idem (c : Char) : (c.toLower).toLower = c.toLower := by
  by_cases h : c.toNat ≥ 65 ∧ c.toNat ≤ 90
  · rw [char_toLower_eq c, if_pos h]
    exact char_toLower_fixed h.1 h.2
  · have e : c.toLower = c := by rw [char_toLower_eq c, if_neg h]
    rw [e]
    exact e

/-- Auxiliary: case folding of the whole text is idempotent. -/
theorem pyLower_idem (s : Chars) : pyLower (pyLower s) = pyLower s := by
  induction s with
  | nil => rfl
  | cons a t ih =>
    simp only [pyLower, List.map_cons] at ih ⊢
    rw [char_toLower_idem, ih]

/-- C9: the verdict depends only on the case-folded query text: queries
equal after lowercasing get identical verdicts, and every query gets the
verdict of its lowercased form. -/
theorem c9_casefold_determines_verdict :
    (∀ (schema : Schema) (sql1 sql2 : String),
      pyLower sql1.data = pyLower sql2.data →
      validate_sql sql1 schema = validate_sql sql2 schema) ∧
    (∀ (sql : String) (schema : Schema),
      validate_sql sql schema =
        validate_sql (String.mk (pyLower sql.data)) schema) := by
  have key : ∀ (schema : Schema) (sql1 sql2 : String),
      pyLower sql1.data = pyLower sql2.data →
      validate_sql sql1 schema = validate_sql sql2 schema := by
    intro schema sql1 sql2 h
    simp only [validate_sql]
    rw [h]
  refine ⟨key, ?_⟩
  intro sql schema
  exact key schema sql (String.mk (pyLower sql.data)) (pyLower_idem sql.data).symm

/-- Witness for C9 on a pair of queries differing only in casing. -/
theorem c9_casefold_witness :
    validate_sql ("SELECT 1 LIMIT 1") exampleSchema =
      validate_sql ("select 1 limit 1") exampleSchema :=
  c9_casefold_determines_verdict.1 exampleSchema
    ("SELECT 1 LIMIT 1") ("select 1 limit 1") (by decide)

/-- C10: the verdict depends on the schema only through table-key
membership: two schemas agreeing on which table names they contain yield
identical verdicts for every query, regardless of column names or types. -/
theorem c10_schema_keys_only (sql : String) (s1 s2 : Schema)
    (h : ∀ t, schemaHasTable s1 t = schemaHasTable s2 t) :
    validate_sql sql s1 = validate_sql sql s2 := by
  have hb : badTable s1 (pyLower sql.data) = badTable s2 (pyLower sql.data) := by
    unfold badTable
    congr 1
    funext t
    rw [h]
  simp only [validate_sql, hb]

/-- Witness for C10 on two schemas with equal keys and different columns. -/
theorem c10_schema_keys_only_witness :
    validate_sql ("select * from london_bike_data limit 3") schemaKeysOnlyA =
      validate_sql ("select * from london_bike_data limit 3") schemaKeysOnlyB :=
  c10_schema_keys_only ("select * from london_bike_data limit 3")
    schemaKeysOnlyA schemaKeysOnlyB (fun _ => rfl)
